import Mathlib

/-!
Shallow embedding of the Report and Export Engine of the access-request
tracker (source file `src/js/approval.js`, class `ExportSystem`), together
with theorems settling the specified properties of the engine.

Modelling conventions, used throughout:
  * JavaScript numbers that hold epoch-millisecond timestamps, levels and
    counts are modelled as `Int`/`Nat`; the one place the code produces a
    fractional number (the average approval time) is modelled exactly as `ℚ`.
  * A JavaScript `Date` object is modelled by its epoch-millisecond value.
  * An object property that may be absent (`undefined`) or `null` is
    modelled as an `Option`.
  * `someString.replace(/c/g, r)`, a global regex replace whose pattern is a
    single character, is embedded as the character-wise `replaceChar` below.
-/

/-- A JavaScript value as it can reach the utility functions of the export
engine: a string, a number, a boolean, a `Date` object (by timestamp), an
invalid `Date`, a non-null object reference (opaque: only its truthiness
matters to the embedded code paths), `null`, or `undefined`. -/
inductive JsVal where
  | str (s : String)
  | num (n : Int)
  | boolean (b : Bool)
  | date (t : Int)
  | invalidDate
  | obj
  | null
  | undefined
deriving DecidableEq

/-- JavaScript `v.toString()` for the values that reach it in this code
(the engine guards `null`/`undefined` before calling it). -/
def jsToString : JsVal → String
  | .str s => s
  | .num n => toString n
  | .boolean b => if b then ("true") else ("false")
  | .date t => toString t
  | .invalidDate => ("Invalid Date")
  | .obj => ("[object Object]")
  | .null => ("null")
  | .undefined => ("undefined")

/-- JavaScript truthiness of a value. -/
def jsTruthy : JsVal → Bool
  | .str s => s ≠ ""
  | .num n => n ≠ 0
  | .boolean b => b
  | .date _ => true
  | .invalidDate => true
  | .obj => true
  | .null => false
  | .undefined => false

/-- Embeds JavaScript `s.includes(c)` for a single-character search string:
true exactly when the character occurs in the string. -/
def strContains (s : String) (c : Char) : Bool :=
  s.data.contains c

/-- Embeds a global single-character regex replace
`s.replace(/c/g, r)`: every occurrence of the character `c` in `s` is
replaced by the string `r`. -/
def replaceChar (s : String) (c : Char) (r : String) : String :=
  String.join (s.data.map (fun ch => if ch = c then r else String.singleton ch))

/-- Embeds `ExportSystem.escapeCsv` (src/js/approval.js:761):
`null`/`undefined` give the empty string; otherwise the value is stringified
and, when it contains a comma, a double quote or a newline, wrapped in
double quotes with each internal double quote doubled (`replace(/"/g,'""')`). -/
def escapeCsv (v : JsVal) : String :=
  match v with
  | .null => ""
  | .undefined => ""
  | v =>
    let string := jsToString v
    if strContains string ',' || strContains string '"' || strContains string '\n' then
      ("\"") ++ replaceChar string '"' ("\"\"") ++ ("\"")
    else string

/-- Embeds `ExportSystem.escapeXml` (src/js/approval.js:770):
`null`/`undefined` give the empty string; otherwise the value is stringified
and the five markup characters are entity-escaped, ampersand first. -/
def escapeXml (v : JsVal) : String :=
  match v with
  | .null => ""
  | .undefined => ""
  | v =>
    replaceChar (replaceChar (replaceChar (replaceChar (replaceChar
      (jsToString v) '&' ("&amp;")) '<' ("&lt;")) '>' ("&gt;"))
      '"' ("&quot;")) '\x27' ("&#39;")

example : escapeCsv (JsVal.str ("Widget, \"Pro\"")) = ("\"Widget, \"\"Pro\"\"\"") := by decide
example : escapeXml (JsVal.str ("A & B < C")) = ("A &amp; B &lt; C") := by decide

/-! ## Data model

The request records the engine reads (src/js/approval.js reads them through
`this.approvalSystem.requests`; the records themselves are created by the
request-management layer outside this subsystem). Field shapes follow the
data model the engine relies on: `metadata.status`, `metadata.submittedAt`
(a `Date`), `metadata.completedAt` (a `Date`, absent until terminal),
`metadata.currentLevel`, and the three event sequences. The optional
`workflow` and `data` sub-objects are the ones `sanitizeRequest` strips
sensitive fields from when they are present. -/

/-- An approval event of a request. -/
structure ApprovalEvent where
  approverId : String
  level : Nat
  approvedAt : Int
  comment : Option String
deriving DecidableEq

/-- A rejection event of a request. -/
structure RejectionEvent where
  approverId : String
  level : Nat
  rejectedAt : Int
  reason : Option String
deriving DecidableEq

/-- A comment event of a request. -/
structure CommentEvent where
  user : String
  type : String
  timestamp : Int
  text : String
deriving DecidableEq

/-- The `metadata` block of a request. -/
structure Metadata where
  status : String
  submittedAt : Int
  completedAt : Option Int
  currentLevel : Nat
  approvals : List ApprovalEvent
  rejections : List RejectionEvent
  comments : List CommentEvent
deriving DecidableEq

/-- The optional nested `workflow` object of a request; `sanitizeRequest`
deletes its `approvers` property when the object is present. -/
structure WorkflowObj where
  approvers : Option (List String)
deriving DecidableEq

/-- The optional nested `data` object of a request; `sanitizeRequest`
deletes its `sensitiveInfo` property when the object is present. -/
structure DataObj where
  sensitiveInfo : Option String
deriving DecidableEq

/-- A request record as read by the export engine. -/
structure Request where
  id : String
  requester : String
  subject : String
  workflowId : String
  workflow : Option WorkflowObj
  data : Option DataObj
  metadata : Metadata
deriving DecidableEq

/-- An approval event tagged with its parent request id, as produced by the
relation-extraction step of `getExportData` (`\x7b ...a, requestId: request.id \x7d`). -/
structure TaggedApproval where
  event : ApprovalEvent
  requestId : String
deriving DecidableEq

/-- A rejection event tagged with its parent request id. -/
structure TaggedRejection where
  event : RejectionEvent
  requestId : String
deriving DecidableEq

/-- A comment event tagged with its parent request id. -/
structure TaggedComment where
  event : CommentEvent
  requestId : String
deriving DecidableEq

/-- Modelled from the spec: the aggregate produced by
`ApprovalSystem.getStatistics`, which lives in the request-management layer
that is not part of the export engine source; the engine only carries the
aggregate opaquely into its payloads, so it is modelled as an opaque token. -/
structure Stats where
  mk ::
deriving DecidableEq

/-- The bundle `getExportData` hands to every renderer. -/
structure ExportData where
  requests : List Request
  approvals : List TaggedApproval
  rejections : List TaggedRejection
  comments : List TaggedComment
  statistics : Stats
deriving DecidableEq

/-! ## Query Engine (`ExportSystem.getExportData`, src/js/approval.js:135) -/

/-- The `filters.dateRange` criterion. `start` and `end` are the epoch
values of the `Date`s the comparisons coerce them to. -/
structure DateRange where
  start : Int
  stop : Int
deriving DecidableEq

/-- The optional filter criteria of an export call. `none` models an absent
property; a present property carries the supplied value, including falsy
ones such as the empty string or a zero limit, whose treatment by the
truthiness guards of the source is embedded explicitly below. -/
structure Filters where
  dateRange : Option DateRange := none
  status : Option String := none
  requester : Option String := none
  workflowId : Option String := none
  sortBy : Option String := none
  sortOrder : Option String := none
  limit : Option Nat := none
deriving DecidableEq

/-- The `if (filters.dateRange)` block of `getExportData` (lines 142-148):
a present range object is truthy, and both bounds are inclusive. -/
def filterByDateRange (o : Option DateRange) (fr : List Request) : List Request :=
  match o with
  | some dr => fr.filter (fun request =>
      dr.start ≤ request.metadata.submittedAt ∧ request.metadata.submittedAt ≤ dr.stop)
  | none => fr

/-- The `if (filters.status)` block: applied only when the supplied value
is truthy (an empty string is falsy and skips the filter). -/
def filterByStatus (o : Option String) (fr : List Request) : List Request :=
  match o with
  | some s => if s ≠ "" then fr.filter (fun request => request.metadata.status = s) else fr
  | none => fr

/-- The `if (filters.requester)` block, with the same truthiness guard. -/
def filterByRequester (o : Option String) (fr : List Request) : List Request :=
  match o with
  | some q => if q ≠ "" then fr.filter (fun request => request.requester = q) else fr
  | none => fr

/-- The `if (filters.workflowId)` block, with the same truthiness guard. -/
def filterByWorkflowId (o : Option String) (fr : List Request) : List Request :=
  match o with
  | some w => if w ≠ "" then fr.filter (fun request => request.workflowId = w) else fr
  | none => fr

/-- The filter stage of `getExportData` (lines 140-166): the four guarded
filters applied in source order. -/
def applyFilters (allRequests : List Request) (filters : Filters) : List Request :=
  filterByWorkflowId filters.workflowId
    (filterByRequester filters.requester
      (filterByStatus filters.status
        (filterByDateRange filters.dateRange allRequests)))

/-- Dynamic property read `a.metadata[sortField]` used by the sort
comparator; unknown names give `undefined`. -/
def metadataField (m : Metadata) (name : String) : JsVal :=
  if name = "status" then .str m.status
  else if name = "submittedAt" then .date m.submittedAt
  else if name = "completedAt" then
    match m.completedAt with
    | some t => .date t
    | none => .null
  else if name = "currentLevel" then .num m.currentLevel
  else if name = "approvals" then .obj
  else if name = "rejections" then .obj
  else if name = "comments" then .obj
  else .undefined

/-- Dynamic property read `a[sortField]` on the request itself. -/
def requestField (r : Request) (name : String) : JsVal :=
  if name = "id" then .str r.id
  else if name = "requester" then .str r.requester
  else if name = "subject" then .str r.subject
  else if name = "workflowId" then .str r.workflowId
  else if name = "workflow" then (match r.workflow with | some _ => .obj | none => .undefined)
  else if name = "data" then (match r.data with | some _ => .obj | none => .undefined)
  else if name = "metadata" then .obj
  else .undefined

/-- `a.metadata[sortField] || a[sortField]`: the metadata value unless it is
falsy, in which case the request-level value. -/
def getSortValue (r : Request) (name : String) : JsVal :=
  let mv := metadataField r.metadata name
  if jsTruthy mv then mv else requestField r name

/-- Whether a character list starts with a pattern. -/
def startsWithChars : List Char → List Char → Bool
  | _, [] => true
  | [], _ :: _ => false
  | a :: as, p :: ps => p = a && startsWithChars as ps

/-- Whether a character list contains a pattern as a contiguous run. -/
def hasSubChars : List Char → List Char → Bool
  | [], pat => pat.isEmpty
  | l@(_ :: rest), pat => startsWithChars l pat || hasSubChars rest pat

/-- Embeds JavaScript `sortField.includes('At')`: true exactly when the
substring `At` occurs in the field name. -/
def strIncludesAt (s : String) : Bool :=
  hasSubChars s.data (("At").data)

/-- `new Date(v)` as applied to a sort value. A `Date` keeps its timestamp,
a number becomes that timestamp, `null` becomes the epoch; the string and
object coercions that the engine never exercises on its record fields are
modelled as an invalid date, as is `undefined`. -/
def toDateVal : JsVal → JsVal
  | .date t => .date t
  | .num n => .date n
  | .null => .date 0
  | _ => .invalidDate

/-- JavaScript `a > b` restricted to the value shapes the comparator can
see. Same-shape strings compare lexicographically, numbers and dates by
value; any comparison involving an invalid date (`NaN`) is false, and the
mixed-shape coercions, which no record field of the engine exercises, are
modelled as false. -/
def jsGt : JsVal → JsVal → Bool
  | .str a, .str b => b < a
  | .num a, .num b => b < a
  | .date a, .date b => b < a
  | _, _ => false

/-- JavaScript `a < b`, same scope as `jsGt`. -/
def jsLt : JsVal → JsVal → Bool
  | .str a, .str b => a < b
  | .num a, .num b => a < b
  | .date a, .date b => a < b
  | _, _ => false

/-- The sort comparator of `getExportData` (lines 172-186): read the field
(metadata first), convert both sides to `Date`s when the field name
contains `At`, then return 1 or -1 from `>` for ascending order and from `<`
for descending order. -/
def sortComparator (sortField sortOrder : String) (a b : Request) : Int :=
  let aValue := getSortValue a sortField
  let bValue := getSortValue b sortField
  let aValue := if strIncludesAt sortField then toDateVal aValue else aValue
  let bValue := if strIncludesAt sortField then toDateVal bValue else bValue
  if sortOrder = "asc" then
    if jsGt aValue bValue then 1 else -1
  else
    if jsLt aValue bValue then 1 else -1

/-- The sort step: a stable sort placing `a` before `b` whenever the
comparator does not order `b` strictly first, as `Array.prototype.sort`
does. -/
def sortRequests (sortField sortOrder : String) (l : List Request) : List Request :=
  List.insertionSort (fun a b => sortComparator sortField sortOrder a b ≤ 0) l

/-- `filters.sortBy || 'submittedAt'`: a falsy supplied value falls back to
the default like an absent one. -/
def resolvedSortField (filters : Filters) : String :=
  match filters.sortBy with
  | some f => if f ≠ "" then f else "submittedAt"
  | none => "submittedAt"

/-- `filters.sortOrder || 'desc'`. -/
def resolvedSortOrder (filters : Filters) : String :=
  match filters.sortOrder with
  | some o => if o ≠ "" then o else "desc"
  | none => "desc"

/-- Embeds `getExportData` (src/js/approval.js:135): filter, then sort with
the defaulted field and order, then truncate when `filters.limit` is truthy
(a zero limit is falsy and is skipped), then extract the tagged event
collections, and attach the approval-system statistics. -/
def getExportData (store : List Request) (stats : Stats) (filters : Filters) : ExportData :=
  let filteredRequests := applyFilters store filters
  let filteredRequests :=
    sortRequests (resolvedSortField filters) (resolvedSortOrder filters) filteredRequests
  let filteredRequests := match filters.limit with
    | some n => if n ≠ 0 then filteredRequests.take n else filteredRequests
    | none => filteredRequests
  { requests := filteredRequests
    approvals := filteredRequests.flatMap (fun request =>
      request.metadata.approvals.map (fun a => { event := a, requestId := request.id }))
    rejections := filteredRequests.flatMap (fun request =>
      request.metadata.rejections.map (fun r => { event := r, requestId := request.id }))
    comments := filteredRequests.flatMap (fun request =>
      request.metadata.comments.map (fun c => { event := c, requestId := request.id }))
    statistics := stats }

/-! ## Statistics Calculator -/

/-- Embeds `ExportSystem.formatDuration` (src/js/approval.js:797). The
JavaScript number arithmetic is modelled exactly over `ℚ`; `Math.floor`
is `Int.floor`, and the chained floors on already-integral intermediate
values are floor division. -/
def formatDuration (ms : ℚ) : String :=
  let seconds : Int := ⌊ms / 1000⌋
  let minutes : Int := seconds.fdiv 60
  let hours : Int := minutes.fdiv 60
  let days : Int := hours.fdiv 24
  if days > 0 then toString days ++ ("d ") ++ toString (hours % 24) ++ ("h")
  else if hours > 0 then toString hours ++ ("h ") ++ toString (minutes % 60) ++ ("m")
  else if minutes > 0 then toString minutes ++ ("m ") ++ toString (seconds % 60) ++ ("s")
  else toString seconds ++ ("s")

/-- The requests `calculateAverageApprovalTime` averages over: status
`approved` with a truthy `completedAt` (a `Date` object is always truthy,
so this is exactly the requests whose `completedAt` is present). -/
def approvedWithCompletion (requests : List Request) : List Request :=
  requests.filter (fun r =>
    r.metadata.status = "approved" && r.metadata.completedAt.isSome)

/-- Embeds `ExportSystem.calculateAverageApprovalTime`
(src/js/approval.js:708): `N/A` when no approved request carries a
completion date, otherwise the mean of `completedAt - submittedAt` in
milliseconds, formatted through `formatDuration`. -/
def calculateAverageApprovalTime (requests : List Request) : String :=
  let approvedRequests := approvedWithCompletion requests
  if approvedRequests.length = 0 then ("N/A")
  else
    let totalTime : Int := approvedRequests.foldl
      (fun sum req => sum + (req.metadata.completedAt.getD 0 - req.metadata.submittedAt)) 0
    formatDuration ((totalTime : ℚ) / (approvedRequests.length : ℚ))

/-- `Object.keys` insertion order of the count tables built by the two
most-frequent helpers: the first-occurrence order of the mapped values. -/
def firstOccurrences (l : List String) : List String :=
  l.foldl (fun acc s => if acc.contains s then acc else acc ++ [s]) []

/-- Number of occurrences of a value in a list of strings. -/
def countOccurrences (l : List String) (s : String) : Nat :=
  (l.filter (fun x => x = s)).length

/-- Embeds `ExportSystem.getMostActiveRequester` (src/js/approval.js:729):
`N/A` on an empty set, otherwise the `reduce` over the count-table keys
keeping the earlier key only while its count is strictly greater. -/
def getMostActiveRequester (requests : List Request) : String :=
  if requests.length = 0 then ("N/A")
  else
    let names := requests.map (fun r => r.requester)
    match firstOccurrences names with
    | [] => ("N/A")
    | k :: ks => ks.foldl
        (fun a b => if countOccurrences names a > countOccurrences names b then a else b) k

/-- Embeds `ExportSystem.getMostCommonWorkflow` (src/js/approval.js:745),
the same reduction over `workflowId`. -/
def getMostCommonWorkflow (requests : List Request) : String :=
  if requests.length = 0 then ("N/A")
  else
    let ids := requests.map (fun r => r.workflowId)
    match firstOccurrences ids with
    | [] => ("N/A")
    | k :: ks => ks.foldl
        (fun a b => if countOccurrences ids a > countOccurrences ids b then a else b) k

/-- The summary object of `ExportSystem.createSummary`
(src/js/approval.js:652), field for field. -/
structure Summary where
  totalRequests : Nat
  pendingRequests : Nat
  approvedRequests : Nat
  rejectedRequests : Nat
  totalApprovals : Nat
  totalRejections : Nat
  totalComments : Nat
  avgApprovalTime : String
  mostActiveRequester : String
  mostCommonWorkflow : String
deriving DecidableEq

/-- Embeds `ExportSystem.createSummary` (src/js/approval.js:652). -/
def createSummary (data : ExportData) : Summary :=
  { totalRequests := data.requests.length
    pendingRequests := (data.requests.filter (fun r => r.metadata.status = "pending")).length
    approvedRequests := (data.requests.filter (fun r => r.metadata.status = "approved")).length
    rejectedRequests := (data.requests.filter (fun r => r.metadata.status = "rejected")).length
    totalApprovals := data.approvals.length
    totalRejections := data.rejections.length
    totalComments := data.comments.length
    avgApprovalTime := calculateAverageApprovalTime data.requests
    mostActiveRequester := getMostActiveRequester data.requests
    mostCommonWorkflow := getMostCommonWorkflow data.requests }

/-- A projected request of the minimal JSON mode: exactly the six fields
`createMinimalData` keeps, with `workflowId` renamed to `workflow`. -/
structure MinimalRequest where
  id : String
  requester : String
  subject : String
  status : String
  submittedAt : Int
  workflow : String
deriving DecidableEq

/-- The object the minimal JSON mode serializes. -/
structure MinimalData where
  requests : List MinimalRequest
  summary : Summary
deriving DecidableEq

/-- Embeds `ExportSystem.createMinimalData` (src/js/approval.js:670). -/
def createMinimalData (data : ExportData) : MinimalData :=
  { requests := data.requests.map (fun req =>
      { id := req.id
        requester := req.requester
        subject := req.subject
        status := req.metadata.status
        submittedAt := req.metadata.submittedAt
        workflow := req.workflowId })
    summary := createSummary data }

example : formatDuration ((10800000 : ℚ)) = ("3h 0m") := by
  have h : ⌊(10800000 : ℚ) / 1000⌋ = 10800 := by norm_num
  simp only [formatDuration, h]
  decide

/-! ## Sanitizer (`ExportSystem.sanitizeRequest`, src/js/approval.js:687)

`const sanitized = \x7b ...request \x7d` copies only the top level, so
`sanitized.workflow` and `sanitized.data` alias the nested objects of the
source record, and `delete sanitized.workflow?.approvers` and
`delete sanitized.data?.sensitiveInfo` strip those properties from the
shared objects; only the `metadata` block is re-copied
(`sanitized.metadata = \x7b ...sanitized.metadata \x7d`) before its `Date`
values are turned into ISO strings. -/

/-- The `metadata` block of the object `sanitizeRequest` returns: the
`Date` values have become ISO strings, everything else is copied. -/
structure SanitizedMetadata where
  status : String
  submittedAt : String
  completedAt : Option String
  currentLevel : Nat
  approvals : List ApprovalEvent
  rejections : List RejectionEvent
  comments : List CommentEvent
deriving DecidableEq

/-- The object `sanitizeRequest` returns. -/
structure SanitizedRequest where
  id : String
  requester : String
  subject : String
  workflowId : String
  workflow : Option WorkflowObj
  data : Option DataObj
  metadata : SanitizedMetadata
deriving DecidableEq

/-- The value `sanitizeRequest` returns, with `toIso` the
`Date.prototype.toISOString` rendering of a timestamp. The nested
`workflow`/`data` objects are the (mutated) shared ones: their stripped
fields are gone here as well. -/
def sanitizeRequest (toIso : Int → String) (request : Request) : SanitizedRequest :=
  { id := request.id
    requester := request.requester
    subject := request.subject
    workflowId := request.workflowId
    workflow := request.workflow.map (fun _ => { approvers := none })
    data := request.data.map (fun _ => { sensitiveInfo := none })
    metadata := { status := request.metadata.status
                  submittedAt := toIso request.metadata.submittedAt
                  completedAt := request.metadata.completedAt.map toIso
                  currentLevel := request.metadata.currentLevel
                  approvals := request.metadata.approvals
                  rejections := request.metadata.rejections
                  comments := request.metadata.comments } }

/-- The state of the SOURCE record after `sanitizeRequest` ran on it: the
two `delete` statements reached the nested objects through the aliases left
by the shallow copy, so a present `workflow` object has lost `approvers`
and a present `data` object has lost `sensitiveInfo`; the metadata block,
re-copied before mutation, is untouched. -/
def sanitizeRequestSourceAfter (request : Request) : Request :=
  { request with
    workflow := request.workflow.map (fun _ => { approvers := none })
    data := request.data.map (fun _ => { sensitiveInfo := none }) }

/-! ## Format renderers and orchestrator -/

/-- The three payload shapes `exportToJson` serializes, one per mode. -/
inductive JsonPayload where
  | fullP (requests : List SanitizedRequest) (approvals : List TaggedApproval)
      (rejections : List TaggedRejection) (comments : List TaggedComment)
      (statistics : Stats)
  | summaryP (s : Summary)
  | minimalP (m : MinimalData)
deriving DecidableEq

/-- The payload of an export result: text, or the opaque buffer (given by
its byte length) an external rendering capability produced. -/
inductive Content where
  | text (s : String)
  | binary (byteLength : Nat)
deriving DecidableEq

/-- The ambient browser environment of one export call: the clock
(`new Date()` renderings), the locale-dependent and ISO date renderings,
`JSON.stringify` as an abstract serializer, and the two optional external
rendering capabilities with the opaque buffers they produce. -/
structure Env where
  nowIso : String
  today : String
  toIso : Int → String
  localeMedium : Int → String
  localeShort : Int → String
  stringify : JsonPayload → String
  excelAvailable : Bool
  pdfAvailable : Bool
  excelRender : ExportData → Nat
  pdfRender : ExportData → Nat

/-- The options object of an export call; absent properties are `none` and
take the defaults destructured at each use site. -/
structure ExportOptions where
  filters : Filters := {}
  sheet : Option String := none
  mode : Option String := none
  includeAll : Option Bool := none

/-- The metadata envelope `exportData` attaches to every result. -/
structure ExportMetadata where
  exportedAt : String
  format : String
  recordCount : Nat
  filters : Filters
  generatedBy : String

/-- An export result; `metadata` is attached by the orchestrator after the
renderer returned. -/
structure ExportResult where
  content : Content
  filename : String
  mimeType : String
  size : Nat
  metadata : Option ExportMetadata := none

/-- Embeds `ExportSystem.formatDate` (src/js/approval.js:780) with a given
locale rendering: a falsy date gives the empty string. -/
def formatDate (loc : Int → String) : Option Int → String
  | none => ""
  | some t => loc t

/-- The CSV `requests` row mapper (src/js/approval.js:25). -/
def csvRequestRow (env : Env) (request : Request) : List String :=
  [request.id, request.requester, escapeCsv (.str request.subject),
   request.metadata.status,
   formatDate env.localeMedium (some request.metadata.submittedAt),
   formatDate env.localeMedium request.metadata.completedAt,
   toString request.metadata.currentLevel, request.workflowId]

/-- The CSV `approvals` row mapper (src/js/approval.js:38); the comment
falls back to the empty string (`approval.comment || ''`). -/
def csvApprovalRow (env : Env) (a : TaggedApproval) (request : Request) : List String :=
  [request.id, a.event.approverId, toString a.event.level, ("approved"),
   formatDate env.localeMedium (some a.event.approvedAt),
   escapeCsv (.str (a.event.comment.getD ""))]

/-- The CSV `rejections` row mapper (src/js/approval.js:49). -/
def csvRejectionRow (env : Env) (r : TaggedRejection) (request : Request) : List String :=
  [request.id, r.event.approverId, toString r.event.level, ("rejected"),
   formatDate env.localeMedium (some r.event.rejectedAt),
   escapeCsv (.str (r.event.reason.getD ""))]

/-- The CSV `comments` row mapper (src/js/approval.js:60). -/
def csvCommentRow (env : Env) (c : TaggedComment) (request : Request) : List String :=
  [request.id, c.event.user, c.event.type,
   formatDate env.localeMedium (some c.event.timestamp),
   escapeCsv (.str c.event.text)]

/-- The header rows of the four CSV templates (src/js/approval.js:22). -/
def csvHeaders (sheet : String) : List String :=
  if sheet = "requests" then
    [("ID"), ("Requester"), ("Subject"), ("Status"), ("Created"), ("Completed"), ("Level"), ("Workflow")]
  else if sheet = "approvals" then
    [("Request ID"), ("Approver"), ("Level"), ("Decision"), ("Date"), ("Comment")]
  else if sheet = "rejections" then
    [("Request ID"), ("Rejector"), ("Level"), ("Decision"), ("Date"), ("Reason")]
  else
    [("Request ID"), ("User"), ("Type"), ("Date"), ("Comment")]

/-- `data.requests.find(r => r.id === item.requestId)`; a missing parent
request would make the mapper dereference `undefined` and raise, modelled
as the error case. -/
def findParentRequest (requests : List Request) (rid : String) : Except String Request :=
  match requests.find? (fun r => r.id = rid) with
  | some r => .ok r
  | none => .error ("TypeError: cannot read properties of undefined")

/-- Embeds `ExportSystem.exportToCsv` (src/js/approval.js:216): resolve the
sheet (default `requests`), fail when no template exists for it, then emit
the header row followed by one mapped row per item, rows joined by commas
and lines by newlines. -/
def exportToCsv (env : Env) (data : ExportData) (options : ExportOptions) :
    Except String ExportResult :=
  let sheet := options.sheet.getD ("requests")
  if sheet ≠ "requests" ∧ sheet ≠ "approvals" ∧ sheet ≠ "rejections" ∧ sheet ≠ "comments" then
    .error (("No CSV template for sheet: ") ++ sheet)
  else
    let dataRows : Except String (List (List String)) :=
      if sheet = "requests" then
        .ok (data.requests.map (csvRequestRow env))
      else if sheet = "approvals" then
        data.approvals.mapM (fun a =>
          (findParentRequest data.requests a.requestId).map (csvApprovalRow env a))
      else if sheet = "rejections" then
        data.rejections.mapM (fun r =>
          (findParentRequest data.requests r.requestId).map (csvRejectionRow env r))
      else
        data.comments.mapM (fun c =>
          (findParentRequest data.requests c.requestId).map (csvCommentRow env c))
    match dataRows with
    | .error e => .error e
    | .ok rows =>
      let lines := String.intercalate (",") (csvHeaders sheet) ::
        rows.map (fun row => String.intercalate (",") row)
      let csvContent := String.intercalate ("\n") lines
      .ok { content := .text csvContent
            filename := ("approvals_") ++ sheet ++ ("_") ++ env.today ++ (".csv")
            mimeType := ("text/csv")
            size := csvContent.utf8ByteSize }

/-- Embeds `ExportSystem.exportToJson` (src/js/approval.js:265): resolve
the mode (default `full`), fail when no template exists for it, build the
mode payload (full mode passes each request through `sanitizeRequest`),
and serialize it. -/
def exportToJson (env : Env) (data : ExportData) (options : ExportOptions) :
    Except String ExportResult :=
  let mode := options.mode.getD ("full")
  if mode ≠ "full" ∧ mode ≠ "summary" ∧ mode ≠ "minimal" then
    .error (("No JSON template for mode: ") ++ mode)
  else
    let payload : JsonPayload :=
      if mode = "full" then
        .fullP (data.requests.map (sanitizeRequest env.toIso))
          data.approvals data.rejections data.comments data.statistics
      else if mode = "summary" then .summaryP (createSummary data)
      else .minimalP (createMinimalData data)
    let jsonString := env.stringify payload
    .ok { content := .text jsonString
          filename := ("approvals_") ++ mode ++ ("_") ++ env.today ++ (".json")
          mimeType := ("application/json")
          size := jsonString.utf8ByteSize }

/-- One scalar entry of `objectToXml` (src/js/approval.js:605):
`<key>` escaped stringified value `</key>`, pieces joined without
separators. -/
def xmlScalar (key : String) (v : JsVal) : String :=
  ("<") ++ key ++ (">") ++ escapeXml (.str (jsToString v)) ++ ("</") ++ key ++ (">")

/-- `objectToXml` on a `Date` value: a `Date` is a non-null object with no
own enumerable properties, so it serializes as an empty tag. -/
def xmlEmptyTag (key : String) : String :=
  ("<") ++ key ++ (">") ++ ("</") ++ key ++ (">")

/-- `objectToXml` on an approval event, wrapped in the `<item>` tag the
array branch uses; an absent optional property produces no entry. Property
order is the creation order of the records, modelled from the spec as the
data-model field order. -/
def approvalEventItemXml (a : ApprovalEvent) : String :=
  ("<item>") ++ xmlScalar ("approverId") (.str a.approverId)
    ++ xmlScalar ("level") (.num a.level) ++ xmlEmptyTag ("approvedAt")
    ++ (match a.comment with | some c => xmlScalar ("comment") (.str c) | none => "")
    ++ ("</item>")

/-- `objectToXml` on a rejection event. -/
def rejectionEventItemXml (r : RejectionEvent) : String :=
  ("<item>") ++ xmlScalar ("approverId") (.str r.approverId)
    ++ xmlScalar ("level") (.num r.level) ++ xmlEmptyTag ("rejectedAt")
    ++ (match r.reason with | some s => xmlScalar ("reason") (.str s) | none => "")
    ++ ("</item>")

/-- `objectToXml` on a comment event. -/
def commentEventItemXml (c : CommentEvent) : String :=
  ("<item>") ++ xmlScalar ("user") (.str c.user) ++ xmlScalar ("type") (.str c.type)
    ++ xmlEmptyTag ("timestamp") ++ xmlScalar ("text") (.str c.text) ++ ("</item>")

/-- `objectToXml` on a `metadata` block: the `Date` values serialize as
empty tags, the event arrays as wrapper tags around `<item>` entries. -/
def metadataXml (m : Metadata) : String :=
  ("<metadata>")
    ++ xmlScalar ("status") (.str m.status)
    ++ xmlEmptyTag ("submittedAt")
    ++ (match m.completedAt with | some _ => xmlEmptyTag ("completedAt") | none => "")
    ++ xmlScalar ("currentLevel") (.num m.currentLevel)
    ++ ("<approvals>") ++ String.join (m.approvals.map approvalEventItemXml) ++ ("</approvals>")
    ++ ("<rejections>") ++ String.join (m.rejections.map rejectionEventItemXml) ++ ("</rejections>")
    ++ ("<comments>") ++ String.join (m.comments.map commentEventItemXml) ++ ("</comments>")
    ++ ("</metadata>")

/-- `objectToXml(request, 'request')`: recursive serialization of a whole
request record. -/
def requestObjectXml (r : Request) : String :=
  ("<request>")
    ++ xmlScalar ("id") (.str r.id)
    ++ xmlScalar ("requester") (.str r.requester)
    ++ xmlScalar ("subject") (.str r.subject)
    ++ xmlScalar ("workflowId") (.str r.workflowId)
    ++ (match r.workflow with
        | some w => ("<workflow>")
            ++ (match w.approvers with
                | some l => ("<approvers>")
                    ++ String.join (l.map (fun s => ("<item>") ++ escapeXml (.str s) ++ ("</item>")))
                    ++ ("</approvers>")
                | none => "")
            ++ ("</workflow>")
        | none => "")
    ++ (match r.data with
        | some d => ("<data>")
            ++ (match d.sensitiveInfo with
                | some s => xmlScalar ("sensitiveInfo") (.str s)
                | none => "")
            ++ ("</data>")
        | none => "")
    ++ metadataXml r.metadata
    ++ ("</request>")

/-- Embeds `ExportSystem.generateXml` for the `requests` template
(src/js/approval.js:589): declaration, root tag, one serialized object per
item, lines joined by newlines. -/
def generateXmlRequests (requests : List Request) : String :=
  String.intercalate ("\n")
    ((("<?xml version=\"1.0\" encoding=\"UTF-8\"?>") : String)
      :: ("<requests>")
      :: (requests.map requestObjectXml ++ [("</requests>")]))

/-- Embeds `ExportSystem.requestToXml` (src/js/approval.js:634), the
readable per-request template used by the full XML variant. -/
def requestToXml (env : Env) (request : Request) : String :=
  ("\n    <request>\n        <id>") ++ escapeXml (.str request.id)
    ++ ("</id>\n        <requester>") ++ escapeXml (.str request.requester)
    ++ ("</requester>\n        <subject>") ++ escapeXml (.str request.subject)
    ++ ("</subject>\n        <workflowId>") ++ escapeXml (.str request.workflowId)
    ++ ("</workflowId>\n        <status>") ++ escapeXml (.str request.metadata.status)
    ++ ("</status>\n        <submittedAt>") ++ escapeXml (.str (env.toIso request.metadata.submittedAt))
    ++ ("</submittedAt>\n        <currentLevel>") ++ toString request.metadata.currentLevel
    ++ ("</currentLevel>\n        <approvals>") ++ toString request.metadata.approvals.length
    ++ ("</approvals>\n        <rejections>") ++ toString request.metadata.rejections.length
    ++ ("</rejections>\n    </request>")

/-- Embeds `ExportSystem.generateFullXml` (src/js/approval.js:562); the
statistics block serializes the opaque aggregate through `objectToXml`
with the `stat` tag. -/
def generateFullXml (env : Env) (data : ExportData) : String :=
  String.intercalate ("\n")
    ([("<?xml version=\"1.0\" encoding=\"UTF-8\"?>"), ("<approvalSystemExport>"),
      ("<exportInfo>"),
      ("<exportDate>") ++ env.nowIso ++ ("</exportDate>"),
      ("<recordCount>") ++ toString data.requests.length ++ ("</recordCount>"),
      ("</exportInfo>"), ("<requests>")]
     ++ data.requests.map (requestToXml env)
     ++ [("</requests>"), ("<statistics>"), xmlEmptyTag ("stat"), ("</statistics>"),
         ("</approvalSystemExport>")])

/-- Embeds `ExportSystem.exportToXml` (src/js/approval.js:538). -/
def exportToXml (env : Env) (data : ExportData) (options : ExportOptions) : ExportResult :=
  let includeAll := options.includeAll.getD false
  let xmlContent := if includeAll then generateFullXml env data
    else generateXmlRequests data.requests
  { content := .text xmlContent
    filename := ("approvals_") ++ env.today ++ (".xml")
    mimeType := ("application/xml")
    size := xmlContent.utf8ByteSize }

/-- Embeds `ExportSystem.exportToExcel` (src/js/approval.js:301): fails
before any work when the ExcelJS capability is absent; the workbook
construction is delegated to that external capability, whose produced
buffer the environment gives opaquely by byte length. -/
def exportToExcel (env : Env) (data : ExportData) : Except String ExportResult :=
  if !env.excelAvailable then
    .error ("Excel export requires ExcelJS library. Please include it in your project.")
  else
    .ok { content := .binary (env.excelRender data)
          filename := ("approvals_report_") ++ env.today ++ (".xlsx")
          mimeType := ("application/vnd.openxmlformats-officedocument.spreadsheetml.sheet")
          size := env.excelRender data }

/-- Embeds `ExportSystem.exportToPdf` (src/js/approval.js:458): fails
before any work when the jsPDF capability is absent; the document layout is
delegated to that external capability, whose produced buffer the
environment gives opaquely by byte length. -/
def exportToPdf (env : Env) (data : ExportData) : Except String ExportResult :=
  if !env.pdfAvailable then
    .error ("PDF export requires jsPDF library. Please include it in your project.")
  else
    .ok { content := .binary (env.pdfRender data)
          filename := ("approvals_report_") ++ env.today ++ (".pdf")
          mimeType := ("application/pdf")
          size := env.pdfRender data }

/-- The supported format registry in its constructor state
(src/js/approval.js:12). -/
def exportFormats : List String := [("csv"), ("json"), ("excel"), ("pdf"), ("xml")]

/-- The `UnsupportedFormat` message (src/js/approval.js:92). -/
def unsupportedMessage (format : String) : String :=
  ("Unsupported format: ") ++ format ++ (". Supported formats: ")
    ++ String.intercalate (", ") exportFormats

/-- Embeds JavaScript `format.toLowerCase()`. -/
def strToLower (s : String) : String :=
  String.mk (s.data.map Char.toLower)

/-- Embeds `ExportSystem.exportData` (src/js/approval.js:90), the
orchestrator: validate the lowercased format against the registry and fail
with the `UnsupportedFormat` message before any data retrieval; otherwise
run the Query Engine once and dispatch on the lowercased format, then
attach the metadata envelope to the renderer result. -/
def exportData (env : Env) (store : List Request) (stats : Stats)
    (format : String) (options : ExportOptions) : Except String ExportResult :=
  if !(exportFormats.contains (strToLower format)) then
    .error (unsupportedMessage format)
  else
    let data := getExportData store stats options.filters
    let result : Except String ExportResult :=
      if strToLower format = "csv" then exportToCsv env data options
      else if strToLower format = "json" then exportToJson env data options
      else if strToLower format = "excel" then exportToExcel env data
      else if strToLower format = "pdf" then exportToPdf env data
      else if strToLower format = "xml" then .ok (exportToXml env data options)
      else .error (("Format ") ++ format ++ (" not implemented"))
    match result with
    | .error e => .error e
    | .ok r => .ok { r with metadata := some (
        { exportedAt := env.nowIso
          format := format
          recordCount := data.requests.length
          filters := options.filters
          generatedBy := ("ApprovalSystem Export Module") } : ExportMetadata) }

/-- The state of the live record collection after a full-mode JSON export:
exactly the records the Query Engine passed to the renderer went through
`sanitizeRequest`, whose deletes act on the source through the aliased
nested objects (object identity is modelled as structural equality; records
of a store are distinct by id). -/
def exportJsonFullSourceAfter (store : List Request) (stats : Stats)
    (options : ExportOptions) : List Request :=
  let kept := (getExportData store stats options.filters).requests
  store.map (fun r => if kept.contains r then sanitizeRequestSourceAfter r else r)

/-! ## Concrete fixtures used by instances, witnesses and counterexamples -/

/-- A metadata block with the given status and dates and no events. -/
def mkMeta (st : String) (sub : Int) (comp : Option Int) : Metadata :=
  { status := st, submittedAt := sub, completedAt := comp, currentLevel := 0,
    approvals := [], rejections := [], comments := [] }

/-- A pending request. -/
def reqPending : Request :=
  { id := ("R1"), requester := ("A"), subject := ("S"), workflowId := ("W1")
    workflow := none, data := none
    metadata := mkMeta ("pending") 0 none }

/-- An approved request completed two hours after submission. -/
def reqApproved2h : Request :=
  { id := ("R2"), requester := ("B"), subject := ("S2"), workflowId := ("W1")
    workflow := none, data := none
    metadata := mkMeta ("approved") 0 (some 7200000) }

/-- An approved request completed four hours after submission. -/
def reqApproved4h : Request :=
  { id := ("R3"), requester := ("B"), subject := ("S3"), workflowId := ("W2")
    workflow := none, data := none
    metadata := mkMeta ("approved") 0 (some 14400000) }

/-- A pending request with the earlier submission timestamp. -/
def reqEarly : Request :=
  { id := ("E"), requester := ("A"), subject := ("S"), workflowId := ("W1")
    workflow := none, data := none
    metadata := mkMeta ("pending") 1000 none }

/-- A pending request with the later submission timestamp. -/
def reqLate : Request :=
  { id := ("L"), requester := ("A"), subject := ("S"), workflowId := ("W1")
    workflow := none, data := none
    metadata := mkMeta ("pending") 2000 none }

/-- A request carrying the nested `workflow` and `data` objects with their
sensitive sub-fields present. -/
def reqSensitive : Request :=
  { id := ("R9"), requester := ("A"), subject := ("S"), workflowId := ("W1")
    workflow := some { approvers := some [("alice"), ("bob")] }
    data := some { sensitiveInfo := some ("secret") }
    metadata := mkMeta ("pending") 0 none }

/-- The three-request bundle of the statistics instance: two approved
requests with durations of two and four hours, one pending. -/
def dataSample : ExportData :=
  { requests := [reqPending, reqApproved2h, reqApproved4h]
    approvals := [], rejections := [], comments := [], statistics := Stats.mk }

/-- A concrete environment: fixed clock, trivial locale, ISO and
serialization functions, no external rendering capability. -/
def sampleEnv : Env :=
  { nowIso := ("2026-01-01T00:00:00.000Z"), today := ("2026-01-01")
    toIso := fun _ => "", localeMedium := fun _ => "", localeShort := fun _ => ""
    stringify := fun _ => "", excelAvailable := false, pdfAvailable := false
    excelRender := fun _ => 0, pdfRender := fun _ => 0 }

/-! ## C5: CSV escaping -/

/-- C5: `escapeCsv` maps any value containing a comma, a double quote or a
newline to the value wrapped in double quotes with every internal double
quote doubled, leaves every other value unchanged, and renders the subject
`Widget, "Pro"` as the cell `"Widget, ""Pro"""`. -/
theorem escapeCsv_spec :
    (∀ s : String,
      (strContains s ',' || strContains s '"' || strContains s '\n') = true →
        escapeCsv (JsVal.str s) = ("\"") ++ replaceChar s '"' ("\"\"") ++ ("\""))
    ∧ (∀ s : String,
      (strContains s ',' || strContains s '"' || strContains s '\n') = false →
        escapeCsv (JsVal.str s) = s)
    ∧ escapeCsv (JsVal.str ("Widget, \"Pro\"")) = ("\"Widget, \"\"Pro\"\"\"") := by
  refine ⟨fun s h => ?_, fun s h => ?_, by decide⟩
  · simp [escapeCsv, jsToString, h]
  · simp [escapeCsv, jsToString, h]

/-- Witness for C5 at the field value `a,b`. -/
theorem escapeCsv_spec_witness :
    escapeCsv (JsVal.str ("a,b")) = ("\"a,b\"") := by
  rw [escapeCsv_spec.1 ("a,b") (by decide)]
  decide

/-! ## C10: totality of the escape helpers -/

/-- C10: `escapeCsv` and `escapeXml` are total on every value: `null` and
`undefined` give the empty string, and every other input yields a string
(the embedding returns a `String` on all constructors; no error case
exists). -/
theorem escape_totality :
    escapeCsv JsVal.null = "" ∧ escapeCsv JsVal.undefined = ""
    ∧ escapeXml JsVal.null = "" ∧ escapeXml JsVal.undefined = ""
    ∧ (∀ v : JsVal, ∃ s t : String, escapeCsv v = s ∧ escapeXml v = t) :=
  ⟨rfl, rfl, rfl, rfl, fun _ => ⟨_, _, rfl, rfl⟩⟩

/-! ## C1: the sanitizer mutates the source records -/

/-- C1 (the code violates the claim): after `sanitizeRequest` ran on a
source record whose nested `workflow` and `data` objects are present, the
source record itself has lost `workflow.approvers` and
`data.sensitiveInfo` — the shallow copy left those objects aliased, and the
`delete` statements acted through the aliases. Consequently a full-mode
JSON export changes the store it read. -/
theorem sanitizeRequest_mutates_source :
    sanitizeRequestSourceAfter reqSensitive ≠ reqSensitive
    ∧ (sanitizeRequestSourceAfter reqSensitive).workflow = some { approvers := none }
    ∧ (sanitizeRequestSourceAfter reqSensitive).data = some { sensitiveInfo := none }
    ∧ exportJsonFullSourceAfter [reqSensitive] Stats.mk {} ≠ [reqSensitive] := by
  decide

/-! ## C3: the filter stage -/

lemma filterByDateRange_sublist (o : Option DateRange) (l : List Request) :
    (filterByDateRange o l).Sublist l := by
  cases o with
  | none => exact List.Sublist.refl l
  | some dr => exact List.filter_sublist l

lemma filterByStatus_sublist (o : Option String) (l : List Request) :
    (filterByStatus o l).Sublist l := by
  cases o with
  | none => exact List.Sublist.refl l
  | some s =>
    by_cases hs : s = "" <;> simp [filterByStatus, hs]

lemma filterByRequester_sublist (o : Option String) (l : List Request) :
    (filterByRequester o l).Sublist l := by
  cases o with
  | none => exact List.Sublist.refl l
  | some q =>
    by_cases hq : q = "" <;> simp [filterByRequester, hq]

lemma filterByWorkflowId_sublist (o : Option String) (l : List Request) :
    (filterByWorkflowId o l).Sublist l := by
  cases o with
  | none => exact List.Sublist.refl l
  | some w =>
    by_cases hw : w = "" <;> simp [filterByWorkflowId, hw]

lemma filterByDateRange_prop {r : Request} {l : List Request} {dr : DateRange}
    (h : r ∈ filterByDateRange (some dr) l) :
    dr.start ≤ r.metadata.submittedAt ∧ r.metadata.submittedAt ≤ dr.stop := by
  simp [filterByDateRange, List.mem_filter] at h
  exact h.2

lemma filterByStatus_prop {r : Request} {l : List Request} {s : String}
    (hs : s ≠ "") (h : r ∈ filterByStatus (some s) l) : r.metadata.status = s := by
  simp [filterByStatus, hs, List.mem_filter] at h
  exact h.2

lemma filterByRequester_prop {r : Request} {l : List Request} {q : String}
    (hq : q ≠ "") (h : r ∈ filterByRequester (some q) l) : r.requester = q := by
  simp [filterByRequester, hq, List.mem_filter] at h
  exact h.2

lemma filterByWorkflowId_prop {r : Request} {l : List Request} {w : String}
    (hw : w ≠ "") (h : r ∈ filterByWorkflowId (some w) l) : r.workflowId = w := by
  simp [filterByWorkflowId, hw, List.mem_filter] at h
  exact h.2

/-- C3 (amended): the filter stage of the Query Engine returns a
subsequence of the input whose every element satisfies every criterion that
was supplied with a truthy value (AND semantics, date range inclusive on
both ends); criteria supplied with a falsy value, such as an empty string,
are treated as absent, and supplying no criteria returns the input
unchanged. -/
theorem applyFilters_spec :
    ∀ (store : List Request) (filters : Filters),
      (applyFilters store filters).Sublist store
      ∧ (∀ dr, filters.dateRange = some dr → ∀ r ∈ applyFilters store filters,
          dr.start ≤ r.metadata.submittedAt ∧ r.metadata.submittedAt ≤ dr.stop)
      ∧ (∀ s, filters.status = some s → s ≠ "" →
          ∀ r ∈ applyFilters store filters, r.metadata.status = s)
      ∧ (∀ q, filters.requester = some q → q ≠ "" →
          ∀ r ∈ applyFilters store filters, r.requester = q)
      ∧ (∀ w, filters.workflowId = some w → w ≠ "" →
          ∀ r ∈ applyFilters store filters, r.workflowId = w)
      ∧ (filters.dateRange = none → filters.status = none →
          filters.requester = none → filters.workflowId = none →
          applyFilters store filters = store) := by
  intro store filters
  refine ⟨?_, ?_, ?_, ?_, ?_, ?_⟩
  · exact ((filterByWorkflowId_sublist _ _).trans
      ((filterByRequester_sublist _ _).trans
        ((filterByStatus_sublist _ _).trans (filterByDateRange_sublist _ _))))
  · intro dr hdr r hr
    unfold applyFilters at hr
    rw [hdr] at hr
    exact filterByDateRange_prop
      ((filterByStatus_sublist _ _).subset
        ((filterByRequester_sublist _ _).subset
          ((filterByWorkflowId_sublist _ _).subset hr)))
  · intro s hst hs r hr
    unfold applyFilters at hr
    rw [hst] at hr
    exact filterByStatus_prop hs
      ((filterByRequester_sublist _ _).subset
        ((filterByWorkflowId_sublist _ _).subset hr))
  · intro q hrq hq r hr
    unfold applyFilters at hr
    rw [hrq] at hr
    exact filterByRequester_prop hq ((filterByWorkflowId_sublist _ _).subset hr)
  · intro w hwf hw r hr
    unfold applyFilters at hr
    rw [hwf] at hr
    exact filterByWorkflowId_prop hw hr
  · intro h1 h2 h3 h4
    unfold applyFilters
    rw [h1, h2, h3, h4]
    rfl

/-- Witness for C3 at a two-request store filtered by status `approved`. -/
theorem applyFilters_spec_witness :
    reqApproved2h.metadata.status = ("approved") :=
  (applyFilters_spec [reqPending, reqApproved2h] { status := some ("approved") }).2.2.1
    ("approved") rfl (by decide) reqApproved2h (by decide)

/-- C3 counterexample against the claim as stated: with the status
criterion supplied as the empty string, the falsy guard skips the filter,
so the output keeps a request whose status does not satisfy the supplied
predicate. -/
theorem applyFilters_empty_status_counterexample :
    reqPending ∈ applyFilters [reqPending] { status := some "" }
    ∧ reqPending.metadata.status ≠ "" := by
  decide

/-! ## C7: the limit criterion -/

/-- C7 (amended): whenever a positive limit N is supplied, the Query Engine
returns exactly the first N elements of the sorted, filtered sequence, so
at most N entries; a limit of 0 is falsy and is treated as absent, the full
sorted filtered sequence being returned (see the counterexample). -/
theorem getExportData_limit_spec :
    ∀ (store : List Request) (stats : Stats) (filters : Filters) (n : Nat),
      filters.limit = some n → 0 < n →
      (getExportData store stats filters).requests
        = (sortRequests (resolvedSortField filters) (resolvedSortOrder filters)
            (applyFilters store filters)).take n
      ∧ (getExportData store stats filters).requests.length ≤ n := by
  intro store stats filters n h hn
  have hne : n ≠ 0 := Nat.pos_iff_ne_zero.mp hn
  constructor
  · simp [getExportData, h, hne]
  · simp [getExportData, h, hne]

/-- Witness for C7 at a two-request store with limit 1. -/
theorem getExportData_limit_spec_witness :
    (getExportData [reqEarly, reqLate] Stats.mk { limit := some 1 }).requests
      = (sortRequests (resolvedSortField { limit := some 1 })
          (resolvedSortOrder { limit := some 1 })
          (applyFilters [reqEarly, reqLate] { limit := some 1 })).take 1
    ∧ (getExportData [reqEarly, reqLate] Stats.mk { limit := some 1 }).requests.length ≤ 1 :=
  getExportData_limit_spec [reqEarly, reqLate] Stats.mk { limit := some 1 } 1 rfl
    (by decide)

/-- C7 counterexample against the claim as stated for N = 0: the truthiness
guard `if (filters.limit)` skips a zero limit, so the result keeps its one
request instead of being truncated to length at most 0. -/
theorem getExportData_limit_zero_counterexample :
    (getExportData [reqPending] Stats.mk { limit := some 0 }).requests.length = 1
    ∧ ¬ ((getExportData [reqPending] Stats.mk { limit := some 0 }).requests.length ≤ 0) := by
  decide

/-! ## C6: descending sort reverses ascending sort -/

lemma cmp_submittedAt_asc (a b : Request) :
    sortComparator ("submittedAt") ("asc") a b ≤ 0
      ↔ a.metadata.submittedAt ≤ b.metadata.submittedAt := by
  show (if jsGt (.date a.metadata.submittedAt) (.date b.metadata.submittedAt)
      then (1 : Int) else -1) ≤ 0 ↔ _
  simp [jsGt]
  omega

lemma cmp_submittedAt_desc (a b : Request) :
    sortComparator ("submittedAt") ("desc") a b ≤ 0
      ↔ b.metadata.submittedAt ≤ a.metadata.submittedAt := by
  show (if jsLt (.date a.metadata.submittedAt) (.date b.metadata.submittedAt)
      then (1 : Int) else -1) ≤ 0 ↔ _
  simp [jsLt]
  omega

lemma pairwise_lt_of_le_of_nodup (f : Request → Int) (l : List Request)
    (hle : l.Pairwise (fun a b => f a ≤ f b)) (hn : (l.map f).Nodup) :
    l.Pairwise (fun a b => f a < f b) := by
  have hne : l.Pairwise (fun a b => f a ≠ f b) := List.pairwise_map.mp hn
  exact (hle.and hne).imp (fun h => lt_of_le_of_ne h.1 h.2)

lemma pairwise_gt_of_ge_of_nodup (f : Request → Int) (l : List Request)
    (hge : l.Pairwise (fun a b => f b ≤ f a)) (hn : (l.map f).Nodup) :
    l.Pairwise (fun a b => f b < f a) := by
  have hne : l.Pairwise (fun a b => f a ≠ f b) := List.pairwise_map.mp hn
  exact (hge.and hne).imp (fun h => lt_of_le_of_ne h.1 (Ne.symm h.2))

/-- C6: on any record set with pairwise distinct `submittedAt` timestamps,
sorting by `submittedAt` descending yields exactly the reverse of sorting
the same input ascending. -/
theorem sortRequests_desc_reverse_asc :
    ∀ (l : List Request), ((l.map fun r => r.metadata.submittedAt).Nodup) →
      sortRequests ("submittedAt") ("desc") l
        = (sortRequests ("submittedAt") ("asc") l).reverse := by
  intro l hn
  have f0 : Request → Int := fun r => r.metadata.submittedAt
  haveI instTotAsc :
      IsTotal Request (fun a b => sortComparator ("submittedAt") ("asc") a b ≤ 0) :=
    ⟨fun a b => by simp only [cmp_submittedAt_asc]; exact le_total _ _⟩
  haveI instTransAsc :
      IsTrans Request (fun a b => sortComparator ("submittedAt") ("asc") a b ≤ 0) :=
    ⟨fun a b c => by simp only [cmp_submittedAt_asc]; exact le_trans⟩
  haveI instTotDesc :
      IsTotal Request (fun a b => sortComparator ("submittedAt") ("desc") a b ≤ 0) :=
    ⟨fun a b => by simp only [cmp_submittedAt_desc]; exact (le_total _ _).symm⟩
  haveI instTransDesc :
      IsTrans Request (fun a b => sortComparator ("submittedAt") ("desc") a b ≤ 0) :=
    ⟨fun a b c => by simp only [cmp_submittedAt_desc]; exact fun h1 h2 => le_trans h2 h1⟩
  have hA := List.sorted_insertionSort
    (fun a b => sortComparator ("submittedAt") ("asc") a b ≤ 0) l
  have hD := List.sorted_insertionSort
    (fun a b => sortComparator ("submittedAt") ("desc") a b ≤ 0) l
  have hA' : (sortRequests ("submittedAt") ("asc") l).Pairwise
      (fun a b => a.metadata.submittedAt ≤ b.metadata.submittedAt) :=
    hA.imp (fun h => (cmp_submittedAt_asc _ _).mp h)
  have hD' : (sortRequests ("submittedAt") ("desc") l).Pairwise
      (fun a b => b.metadata.submittedAt ≤ a.metadata.submittedAt) :=
    hD.imp (fun h => (cmp_submittedAt_desc _ _).mp h)
  have hpermA : List.Perm (sortRequests ("submittedAt") ("asc") l) l :=
    List.perm_insertionSort _ l
  have hpermD : List.Perm (sortRequests ("submittedAt") ("desc") l) l :=
    List.perm_insertionSort _ l
  have hnA : ((sortRequests ("submittedAt") ("asc") l).map
      fun r => r.metadata.submittedAt).Nodup :=
    ((hpermA.map _).nodup_iff).mpr hn
  have hnD : ((sortRequests ("submittedAt") ("desc") l).map
      fun r => r.metadata.submittedAt).Nodup :=
    ((hpermD.map _).nodup_iff).mpr hn
  have hDs : (sortRequests ("submittedAt") ("desc") l).Pairwise
      (fun a b => b.metadata.submittedAt < a.metadata.submittedAt) :=
    pairwise_gt_of_ge_of_nodup _ _ hD' hnD
  have hAs : (sortRequests ("submittedAt") ("asc") l).Pairwise
      (fun a b => a.metadata.submittedAt < b.metadata.submittedAt) :=
    pairwise_lt_of_le_of_nodup _ _ hA' hnA
  have hRs : ((sortRequests ("submittedAt") ("asc") l).reverse).Pairwise
      (fun a b => b.metadata.submittedAt < a.metadata.submittedAt) :=
    List.pairwise_reverse.mpr hAs
  haveI : IsAntisymm Request
      (fun a b => b.metadata.submittedAt < a.metadata.submittedAt) :=
    ⟨fun a b h1 h2 => absurd (h1.trans h2) (lt_irrefl _)⟩
  exact List.eq_of_perm_of_sorted
    (hpermD.trans (hpermA.symm.trans (List.reverse_perm _).symm)) hDs hRs

/-- Witness for C6 at a two-request store with distinct timestamps. -/
theorem sortRequests_desc_reverse_asc_witness :
    sortRequests ("submittedAt") ("desc") [reqEarly, reqLate]
      = (sortRequests ("submittedAt") ("asc") [reqEarly, reqLate]).reverse :=
  sortRequests_desc_reverse_asc [reqEarly, reqLate] (by decide)

/-! ## C9: the summary counts partition the requests -/

lemma count_partition (l : List Request)
    (h : ∀ r ∈ l, r.metadata.status = ("pending") ∨ r.metadata.status = ("approved")
      ∨ r.metadata.status = ("rejected")) :
    (l.filter (fun r => r.metadata.status = ("pending"))).length
      + (l.filter (fun r => r.metadata.status = ("approved"))).length
      + (l.filter (fun r => r.metadata.status = ("rejected"))).length = l.length := by
  induction l with
  | nil => simp
  | cons a t ih =>
    have ha := h a (List.mem_cons_self a t)
    have ht : ∀ r ∈ t, r.metadata.status = ("pending") ∨ r.metadata.status = ("approved")
        ∨ r.metadata.status = ("rejected") := fun r hr => h r (List.mem_cons_of_mem a hr)
    have ih' := ih ht
    rcases ha with h1 | h1 | h1 <;> simp [List.filter_cons, h1] <;> omega

/-- C9: whenever every request status is one of `pending`, `approved`,
`rejected`, the summary satisfies pending + approved + rejected = total,
and total equals the number of requests. -/
theorem createSummary_partition :
    ∀ (data : ExportData),
      (∀ r ∈ data.requests, r.metadata.status = ("pending")
        ∨ r.metadata.status = ("approved") ∨ r.metadata.status = ("rejected")) →
      (createSummary data).pendingRequests + (createSummary data).approvedRequests
          + (createSummary data).rejectedRequests = (createSummary data).totalRequests
      ∧ (createSummary data).totalRequests = data.requests.length := by
  intro data h
  exact ⟨count_partition data.requests h, rfl⟩

/-- Witness for C9 at the three-request sample bundle. -/
theorem createSummary_partition_witness :
    (createSummary dataSample).pendingRequests + (createSummary dataSample).approvedRequests
        + (createSummary dataSample).rejectedRequests = (createSummary dataSample).totalRequests
    ∧ (createSummary dataSample).totalRequests = dataSample.requests.length :=
  createSummary_partition dataSample (by decide)

/-! ## C4: average approval time -/

lemma append_last_char_ne (a tail : String) (c : Char) (htail : tail.data = [c])
    (hc : c ≠ 'A') : a ++ tail ≠ ("N/A") := by
  intro h
  have hd : a.data ++ [c] = ['N', '/'] ++ ['A'] := by
    rw [← htail, show a.data ++ tail.data = (a ++ tail).data from rfl, h]
    rfl
  have h2 : [c] = ['A'] := (List.append_inj' hd rfl).2
  simp at h2
  exact hc h2

lemma formatDuration_ne (ms : ℚ) : formatDuration ms ≠ ("N/A") := by
  simp only [formatDuration]
  split_ifs <;> exact append_last_char_ne _ _ _ rfl (by decide)

/-- C4: `avgApprovalTime` is the literal `N/A` exactly when no request has
status `approved` with `completedAt` set; otherwise it is the mean of
`completedAt - submittedAt` over those requests rendered by
`formatDuration` (coarsest-unit formatting); in particular, for the sample
of statuses approved/approved/pending with durations of two and four hours,
the summary has `avgApprovalTime` = `3h 0m` and `pendingRequests` = 1. -/
theorem avgApprovalTime_spec :
    (∀ requests : List Request,
        (calculateAverageApprovalTime requests = ("N/A")
          ↔ approvedWithCompletion requests = []))
    ∧ (∀ requests : List Request, approvedWithCompletion requests ≠ [] →
        calculateAverageApprovalTime requests
          = formatDuration
              ((((approvedWithCompletion requests).foldl
                  (fun sum req => sum + (req.metadata.completedAt.getD 0
                    - req.metadata.submittedAt)) 0 : Int) : ℚ)
                / ((approvedWithCompletion requests).length : ℚ)))
    ∧ (createSummary dataSample).avgApprovalTime = ("3h 0m")
    ∧ (createSummary dataSample).pendingRequests = 1 := by
  have hc : calculateAverageApprovalTime [reqPending, reqApproved2h, reqApproved4h]
      = ("3h 0m") := by
    have h1 : approvedWithCompletion [reqPending, reqApproved2h, reqApproved4h]
        = [reqApproved2h, reqApproved4h] := by decide
    have h2 : (([reqApproved2h, reqApproved4h] : List Request).foldl
        (fun sum req => sum + (req.metadata.completedAt.getD 0
          - req.metadata.submittedAt)) 0 : Int) = 21600000 := by decide
    simp only [calculateAverageApprovalTime, h1, h2]
    norm_num
    have h3 : ⌊(10800000 : ℚ) / 1000⌋ = 10800 := by norm_num
    simp only [formatDuration, h3]
    decide
  refine ⟨fun requests => ?_, fun requests h => ?_, hc, by decide⟩
  · constructor
    · intro heq
      by_contra hne
      have hlen : (approvedWithCompletion requests).length ≠ 0 := by
        simpa [List.length_eq_zero] using hne
      simp [calculateAverageApprovalTime, hlen] at heq
      exact formatDuration_ne _ heq
    · intro he
      simp [calculateAverageApprovalTime, he]
  · have hlen : (approvedWithCompletion requests).length ≠ 0 := by
      simpa [List.length_eq_zero] using h
    simp [calculateAverageApprovalTime, hlen]

/-- Witness for C4 applying the mean formula at a one-request input. -/
theorem avgApprovalTime_spec_witness :
    calculateAverageApprovalTime [reqApproved2h]
      = formatDuration
          ((((approvedWithCompletion [reqApproved2h]).foldl
              (fun sum req => sum + (req.metadata.completedAt.getD 0
                - req.metadata.submittedAt)) 0 : Int) : ℚ)
            / ((approvedWithCompletion [reqApproved2h]).length : ℚ)) :=
  avgApprovalTime_spec.2.1 [reqApproved2h] (by decide)

/-! ## C8: minimal-mode JSON export -/

/-- The single request of the minimal-export instance. -/
def minimalReq (T : Int) : Request :=
  { id := ("R1"), requester := ("A"), subject := ("S"), workflowId := ("W1")
    workflow := none, data := none
    metadata := mkMeta ("pending") T none }

/-- The renderer input bundle holding only that request. -/
def minimalExportData (T : Int) : ExportData :=
  { requests := [minimalReq T], approvals := [], rejections := [], comments := []
    statistics := Stats.mk }

/-- C8: the minimal-mode JSON export of the single request renders the
one-element projection list with `workflowId` renamed to `workflow` and no
other fields (the projection record has exactly those six fields), together
with a summary whose `totalRequests` is 1; the serialized payload is the
`JSON.stringify` image of exactly that object. -/
theorem minimal_export_spec :
    ∀ (T : Int) (env : Env),
      (createMinimalData (minimalExportData T)).requests
        = [{ id := ("R1"), requester := ("A"), subject := ("S"), status := ("pending"),
             submittedAt := T, workflow := ("W1") }]
      ∧ (createMinimalData (minimalExportData T)).summary.totalRequests = 1
      ∧ exportToJson env (minimalExportData T) { mode := some ("minimal") }
          = Except.ok
              { content := .text (env.stringify
                  (.minimalP (createMinimalData (minimalExportData T))))
                filename := ("approvals_") ++ ("minimal") ++ ("_") ++ env.today ++ (".json")
                mimeType := ("application/json")
                size := (env.stringify
                  (.minimalP (createMinimalData (minimalExportData T)))).utf8ByteSize } := by
  intro T env
  exact ⟨rfl, rfl, rfl⟩

/-! ## C2: unsupported formats -/

lemma hasSubChars_append_right (l₁ l₂ pat : List Char)
    (h : hasSubChars l₂ pat = true) : hasSubChars (l₁ ++ l₂) pat = true := by
  induction l₁ with
  | nil => simpa using h
  | cons a t ih =>
    have hstep : hasSubChars (a :: (t ++ l₂)) pat
        = (startsWithChars (a :: (t ++ l₂)) pat || hasSubChars (t ++ l₂) pat) := rfl
    simp [hstep, ih]

/-- C2 (amended): for every format string whose LOWERCASED form is not in
the supported registry, `exportData` fails with the `UnsupportedFormat`
error, whose message contains every valid format name; the result is that
same error for every record store (the store binder is universally
quantified on the error-valued equation), so no data retrieval can affect
it and no payload is produced. The claim as stated fails for strings such
as `CSV` that differ from a supported name only by case (see the
counterexample). -/
theorem exportData_unsupported_format :
    ∀ (env : Env) (store : List Request) (stats : Stats) (format : String)
      (options : ExportOptions),
      exportFormats.contains (strToLower format) = false →
      exportData env store stats format options = Except.error (unsupportedMessage format)
      ∧ ∀ f ∈ exportFormats, hasSubChars (unsupportedMessage format).data f.data = true := by
  intro env store stats format options h
  constructor
  · simp only [exportData, h]
    rfl
  · intro f hf
    have hjoin : hasSubChars (String.intercalate (", ") exportFormats).data f.data
        = true := by
      simp [exportFormats] at hf
      rcases hf with rfl | rfl | rfl | rfl | rfl <;> decide
    have hdata : (unsupportedMessage format).data
        = ((("Unsupported format: ") ++ format ++ (". Supported formats: ")).data)
          ++ (String.intercalate (", ") exportFormats).data := rfl
    rw [hdata]
    exact hasSubChars_append_right _ _ _ hjoin

/-- Witness for C2 at the format `bogus`. -/
theorem exportData_unsupported_format_witness :
    exportData sampleEnv [reqPending] Stats.mk ("bogus") {}
      = Except.error (unsupportedMessage ("bogus"))
    ∧ hasSubChars (unsupportedMessage ("bogus")).data ("csv").data = true := by
  have h := exportData_unsupported_format sampleEnv [reqPending] Stats.mk ("bogus") {}
    (by decide)
  exact ⟨h.1, h.2 ("csv") (by decide)⟩

/-- C2 counterexample against the claim as stated: `CSV` is not an element
of the supported set, yet the export succeeds, because the validation
lowercases the format first. -/
theorem exportData_case_counterexample :
    exportFormats.contains ("CSV") = false
    ∧ (exportData sampleEnv [] Stats.mk ("CSV") {}).isOk = true :=
  ⟨by decide, by rfl⟩
